import Mathlib

/-!
Verification of the real-time chat layer of the tourist platform
(`apps/api/routers/chat.py` and `apps/api/crud.py`).

The Python code keeps WebSocket connections in a `ConnectionManager`
holding two dictionaries: `active_connections` maps a booking id to the
set of websockets in that room, and `websocket_users` maps a websocket
back to its user id.  We embed dictionaries as association lists over
`Nat` keys (websockets are identified by `Nat` tokens) and sets as
duplicate-free lists; dictionary update replaces the first binding of a
key, deletion removes every binding of the key, matching `dict` semantics
whenever keys are unique.
-/

/-- Lookup in an association list, mirroring `d[k]` / `k in d`. -/
def dictFind (k : Nat) : List (Nat × α) → Option α
  | [] => none
  | p :: rest => if p.1 = k then some p.2 else dictFind k rest

/-- Update or insert a binding, mirroring `d[k] = v`. -/
def dictSet (k : Nat) (v : α) : List (Nat × α) → List (Nat × α)
  | [] => [(k, v)]
  | p :: rest => if p.1 = k then (k, v) :: rest else p :: dictSet k v rest

/-- Remove every binding of a key, mirroring `del d[k]` (a no-op when the
key is absent, as in the guarded deletes of the Python code). -/
def dictDel (k : Nat) : List (Nat × α) → List (Nat × α)
  | [] => []
  | p :: rest => if p.1 = k then dictDel k rest else p :: dictDel k rest

/-- Add an element to a set, mirroring `s.add(x)`. -/
def setAdd (x : Nat) (s : List Nat) : List Nat :=
  if x ∈ s then s else s ++ [x]

/-- Remove an element from a set, mirroring `s.discard(x)`. -/
def setRemove (x : Nat) (s : List Nat) : List Nat :=
  s.filter (fun y => y ≠ x)

/-- The state of `ConnectionManager` from `routers/chat.py`. -/
structure ConnectionManager where
  active_connections : List (Nat × List Nat)
  websocket_users : List (Nat × Nat)
deriving DecidableEq, Repr

namespace ConnectionManager

/-- The empty manager produced by `ConnectionManager.__init__`. -/
def empty : ConnectionManager := ⟨[], []⟩

/-- `ConnectionManager.connect`: accept a websocket and add it to the
booking room, recording its user id in the reverse lookup. -/
def connect (m : ConnectionManager) (websocket booking_id user_id : Nat) :
    ConnectionManager :=
  let conns := (dictFind booking_id m.active_connections).getD []
  { active_connections :=
      dictSet booking_id (setAdd websocket conns) m.active_connections
    websocket_users := dictSet websocket user_id m.websocket_users }

/-- `ConnectionManager.disconnect`: drop the websocket from the booking
room, deleting the room entry when it becomes empty, and delete the
reverse-lookup entry when present. -/
def disconnect (m : ConnectionManager) (websocket booking_id : Nat) :
    ConnectionManager :=
  let ac :=
    match dictFind booking_id m.active_connections with
    | none => m.active_connections
    | some conns =>
      let conns2 := setRemove websocket conns
      if conns2 = [] then dictDel booking_id m.active_connections
      else dictSet booking_id conns2 m.active_connections
  { active_connections := ac
    websocket_users := dictDel websocket m.websocket_users }

/-- `ConnectionManager.send_to_booking`: attempt delivery to every
websocket of the room other than `exclude_websocket`; a send that raises
(modelled by `sendFails`) is collected and disconnected afterwards.
Returns the list of websockets that received the message together with
the manager after the cleanup of failed channels. -/
def send_to_booking (m : ConnectionManager) (message : String)
    (booking_id : Nat) (exclude_websocket : Option Nat)
    (sendFails : Nat → Bool) : List Nat × ConnectionManager :=
  match dictFind booking_id m.active_connections with
  | none => ([], m)
  | some conns =>
    let targets := conns.filter (fun ws => exclude_websocket ≠ some ws)
    let delivered := targets.filter (fun ws => !sendFails ws)
    let disconnected_websockets := targets.filter (fun ws => sendFails ws)
    (delivered,
      disconnected_websockets.foldl
        (fun acc ws => disconnect acc ws booking_id) m)

/-- Whether a websocket is in some room of the registry table. -/
def channelRegistered (m : ConnectionManager) (ws : Nat) : Bool :=
  m.active_connections.any (fun p => p.2.contains ws)

/-- Whether a websocket is in the room of one given booking. -/
def inRoom (m : ConnectionManager) (booking_id ws : Nat) : Bool :=
  match dictFind booking_id m.active_connections with
  | none => false
  | some conns => conns.contains ws

end ConnectionManager

/-! ## The message store (`crud.py`) and the REST send path -/

/-- A booking row, reduced to the two participant columns the chat layer
reads (`booking.user_id` is the tourist, `booking.guide_id` the guide). -/
structure Booking where
  user_id : Nat
  guide_id : Nat
deriving DecidableEq, Repr

/-- The request body `schemas.MessageCreate`. -/
structure MessageCreate where
  booking_id : Nat
  recipient_id : Nat
  content : String
deriving DecidableEq, Repr

/-- A persisted `models.Message` row, reduced to the columns set by
`crud.create_message` (id and timestamp are database-generated and not
part of any claim). -/
structure Message where
  booking_id : Nat
  sender_id : Nat
  recipient_id : Nat
  content : String
deriving DecidableEq, Repr

/-- `crud.create_message`.  The database is abstracted by
`get_booking_by_id`; a raised `ValueError` becomes `Except.error` with
the exact message string.  The final commit is modelled as succeeding
(the `IntegrityError` rollback path concerns database-level faults
outside the functional model). -/
def create_message (get_booking_by_id : Nat → Option Booking)
    (message : MessageCreate) (sender_id : Nat) : Except String Message :=
  match get_booking_by_id message.booking_id with
  | none => .error "Booking not found"
  | some booking =>
    if sender_id ≠ booking.user_id ∧ sender_id ≠ booking.guide_id then
      .error "Access denied. You can only send messages in your own bookings"
    else if message.recipient_id = sender_id then
      .error "Cannot send message to yourself"
    else if message.recipient_id ≠ booking.user_id ∧
        message.recipient_id ≠ booking.guide_id then
      .error "Recipient must be involved in this booking"
    else
      .ok ⟨message.booking_id, sender_id, message.recipient_id,
        message.content⟩

/-- The broadcast payload built by `send_message` from the new row
(abstracting `json.dumps` of the `new_message` envelope). -/
def encode_new_message (msg : Message) : String :=
  "type=new_message;booking_id=" ++ toString msg.booking_id ++
    ";sender_id=" ++ toString msg.sender_id ++
    ";recipient_id=" ++ toString msg.recipient_id ++
    ";content=" ++ msg.content

/-- Outcome of the REST handler `send_message` in `routers/chat.py`:
the manager after any broadcast, a record of the `send_to_booking`
invocation (payload, booking id, excluded channel) when one happened,
the channels the payload was delivered to, and the HTTP response
(`Except.error` carries the status code and detail of the
`HTTPException`). -/
structure SendMessageResult where
  manager : ConnectionManager
  broadcast_call : Option (String × Nat × Option Nat)
  delivered : List Nat
  response : Except (Nat × String) Message
deriving Repr

/-- The REST handler `send_message`: append the message durably via
`create_message`; on success broadcast the new message to the booking
room excluding nobody; on `ValueError` answer 400 and touch nothing. -/
def send_message (get_booking_by_id : Nat → Option Booking)
    (m : ConnectionManager) (message : MessageCreate) (sender_id : Nat)
    (sendFails : Nat → Bool) : SendMessageResult :=
  match create_message get_booking_by_id message sender_id with
  | .error e =>
    { manager := m, broadcast_call := none, delivered := [],
      response := .error (400, e) }
  | .ok db_message =>
    let payload := encode_new_message db_message
    let r := ConnectionManager.send_to_booking m payload
      db_message.booking_id none sendFails
    { manager := r.2,
      broadcast_call := some (payload, db_message.booking_id, none),
      delivered := r.1,
      response := .ok db_message }

/-! ## The WebSocket endpoint (`websocket_endpoint` in `routers/chat.py`) -/

/-- Closure code `status.WS_1008_POLICY_VIOLATION`. -/
def WS_1008_POLICY_VIOLATION : Nat := 1008

/-- Closure code `status.WS_1003_UNSUPPORTED_DATA`. -/
def WS_1003_UNSUPPORTED_DATA : Nat := 1003

/-- Closure code `status.WS_1011_INTERNAL_ERROR`. -/
def WS_1011_INTERNAL_ERROR : Nat := 1011

/-- How the pre-loop part of `websocket_endpoint` ends: either the
socket is closed with a code and reason, or the session is open for the
resolved user. -/
inductive WsOutcome where
  | closed (code : Nat) (reason : String)
  | opened (user_id : Nat)
deriving DecidableEq, Repr

/-- The `connected` confirmation frame sent right after registration. -/
def connected_frame (booking_id : Nat) : String :=
  "type=connected;booking_id=" ++ toString booking_id ++
    ";message=Connected to chat"

/-- The authentication and authorization gate of `websocket_endpoint`,
up to and including `manager.connect` and the confirmation frame.
`verify_token` returning `none` models `verify_token` raising the
credentials `HTTPException`, which the handler catches in its outer
`except Exception` block and answers with `close(1011, "Server error")`.
Returns the manager, the frames sent to this websocket, and the
outcome. -/
def websocket_auth (verify_token : String → Option String)
    (get_user_by_email : String → Option Nat)
    (get_booking_by_id : Nat → Option Booking)
    (m : ConnectionManager) (websocket booking_id : Nat)
    (token : Option String) :
    ConnectionManager × List String × WsOutcome :=
  match token with
  | none =>
    (m, [], .closed WS_1008_POLICY_VIOLATION "Authentication required")
  | some t =>
    match verify_token t with
    | none => (m, [], .closed WS_1011_INTERNAL_ERROR "Server error")
    | some email =>
      match get_user_by_email email with
      | none => (m, [], .closed WS_1008_POLICY_VIOLATION "Invalid user")
      | some user_id =>
        match get_booking_by_id booking_id with
        | none =>
          (m, [], .closed WS_1003_UNSUPPORTED_DATA "Booking not found")
        | some booking =>
          if user_id = booking.user_id ∨ user_id = booking.guide_id then
            (ConnectionManager.connect m websocket booking_id user_id,
              [connected_frame booking_id], .opened user_id)
          else
            (m, [], .closed WS_1008_POLICY_VIOLATION "Access denied")

/-- An inbound frame classified by its JSON decoding result, covering
every shape the loop body distinguishes: `malformed` is data on which
`json.loads` raises `JSONDecodeError`; `nonRecord` is valid JSON that
is not an object (a list, number, string, boolean or null), on which
`message_data.get("type")` raises `AttributeError`; `other` is a JSON
object whose type discriminator is absent or unrecognized. -/
inductive Inbound where
  | malformed (raw : String)
  | nonRecord
  | ping
  | typing (is_typing : Bool)
  | other
deriving DecidableEq, Repr

/-- One client-side event observed by `websocket.receive_text`:
a frame, a clean close (`WebSocketDisconnect`), or any other exception
escaping the loop body. -/
inductive Ev where
  | recv (f : Inbound)
  | recvClose
  | recvFault
deriving DecidableEq, Repr

/-- How the inbound loop left the handler: still waiting for input,
returned after handling `WebSocketDisconnect`, or closed by the outer
`except Exception` block with the given code. -/
inductive SessionExit where
  | stillOpen
  | clientClose
  | faultClosed (code : Nat)
deriving DecidableEq, Repr

/-- The error frame answered to a malformed inbound frame. -/
def error_frame : String := "type=error;message=Invalid JSON format"

/-- The pong frame answered to a ping. -/
def pong_frame : String := "type=pong"

/-- The typing-indicator payload broadcast to the other users. -/
def typing_frame (user_id : Nat) (user_name : String)
    (is_typing : Bool) : String :=
  "type=typing;user_id=" ++ toString user_id ++ ";user_name=" ++
    user_name ++ ";is_typing=" ++ toString is_typing

/-- The inbound loop of `websocket_endpoint` for an open session,
processing a finite prefix of client events.  Mirrors the Python
control flow: `WebSocketDisconnect` is caught by the inner handler
which calls `manager.disconnect` and returns; the per-frame
`except json.JSONDecodeError` answers only decode failures with the
error frame; the `AttributeError` raised by `message_data.get` on a
non-object frame, like every other exception, propagates to the outer
`except Exception`, which closes the socket with code 1011 and
performs no unregistration.  Returns the manager, the frames sent
back to this websocket, and how the loop ended. -/
def message_loop (m : ConnectionManager)
    (websocket booking_id user_id : Nat) (user_name : String)
    (sendFails : Nat → Bool) :
    List Ev → ConnectionManager × List String × SessionExit
  | [] => (m, [], .stillOpen)
  | .recvClose :: _ =>
    (ConnectionManager.disconnect m websocket booking_id, [], .clientClose)
  | .recvFault :: _ => (m, [], .faultClosed WS_1011_INTERNAL_ERROR)
  | .recv (.malformed _) :: evs =>
    let r := message_loop m websocket booking_id user_id user_name
      sendFails evs
    (r.1, error_frame :: r.2.1, r.2.2)
  | .recv .nonRecord :: _ => (m, [], .faultClosed WS_1011_INTERNAL_ERROR)
  | .recv .ping :: evs =>
    let r := message_loop m websocket booking_id user_id user_name
      sendFails evs
    (r.1, pong_frame :: r.2.1, r.2.2)
  | .recv (.typing b) :: evs =>
    let r := ConnectionManager.send_to_booking m
      (typing_frame user_id user_name b) booking_id (some websocket)
      sendFails
    message_loop r.2 websocket booking_id user_id user_name sendFails evs
  | .recv .other :: evs =>
    message_loop m websocket booking_id user_id user_name sendFails evs

/-! ## Registry operation sequences and invariants -/

/-- One registry operation: `reg` is `connect`, `unreg` is `disconnect`,
`bcast` is `send_to_booking` (whose cleanup of failed channels is the
broadcast-triggered removal). -/
inductive Op where
  | reg (ws booking_id user_id : Nat)
  | unreg (ws booking_id : Nat)
  | bcast (booking_id : Nat) (exclude : Option Nat) (sendFails : Nat → Bool)

/-- Apply one operation to the manager state. -/
def applyOp (m : ConnectionManager) : Op → ConnectionManager
  | .reg ws booking_id user_id =>
    ConnectionManager.connect m ws booking_id user_id
  | .unreg ws booking_id => ConnectionManager.disconnect m ws booking_id
  | .bcast booking_id exclude sendFails =>
    (ConnectionManager.send_to_booking m "payload" booking_id exclude
      sendFails).2

/-- Run a sequence of operations from a manager state. -/
def runOps (m : ConnectionManager) : List Op → ConnectionManager
  | [] => m
  | op :: ops => runOps (applyOp m op) ops

/-- The websocket is in no room other than possibly the one of
`booking_id`: the precondition under which `disconnect` is invoked with
the conversation the channel was registered under. -/
def onlyIn (m : ConnectionManager) (ws booking_id : Nat) : Prop :=
  ∀ b conns, dictFind b m.active_connections = some conns → ws ∈ conns →
    b = booking_id

/-- The side condition the claim itself places on a sequence: every
`unreg` uses the conversation id its channel was registered under
(vacuous for `reg` and `bcast`). -/
def claimValidOp (m : ConnectionManager) : Op → Prop
  | .reg _ _ _ => True
  | .unreg ws booking_id => onlyIn m ws booking_id
  | .bcast _ _ _ => True

/-- The amended side condition: additionally, a `reg` only ever uses a
channel that is not currently registered (true of the handler, which
registers each freshly accepted websocket object exactly once). -/
def validOp (m : ConnectionManager) : Op → Prop
  | .reg ws _ _ =>
    m.channelRegistered ws = false ∧
      dictFind ws m.websocket_users = none
  | .unreg ws booking_id => onlyIn m ws booking_id
  | .bcast _ _ _ => True

/-- A sequence is valid from a state when each operation satisfies the
claimed side condition in the state it runs in. -/
def claimValidFrom : ConnectionManager → List Op → Prop
  | _, [] => True
  | m, op :: ops => claimValidOp m op ∧ claimValidFrom (applyOp m op) ops

/-- A sequence is valid from a state when each operation satisfies the
amended side condition in the state it runs in. -/
def validFrom : ConnectionManager → List Op → Prop
  | _, [] => True
  | m, op :: ops => validOp m op ∧ validFrom (applyOp m op) ops

/-- The registry invariant of the spec: every channel of some room has
a reverse-lookup entry, every reverse-lookup entry points at a channel
of some room, and a channel is in at most one room. -/
def ConnectionManager.wf (m : ConnectionManager) : Prop :=
  (∀ b conns, dictFind b m.active_connections = some conns →
    ∀ ws ∈ conns, (dictFind ws m.websocket_users).isSome) ∧
  (∀ ws uid, dictFind ws m.websocket_users = some uid →
    ∃ b conns, dictFind b m.active_connections = some conns ∧ ws ∈ conns) ∧
  (∀ b1 b2 s1 s2 ws, dictFind b1 m.active_connections = some s1 →
    dictFind b2 m.active_connections = some s2 → ws ∈ s1 → ws ∈ s2 →
    b1 = b2)

/-- Every room of the registry table is non-empty. -/
def ConnectionManager.roomsNonempty (m : ConnectionManager) : Prop :=
  ∀ p ∈ m.active_connections, p.2 ≠ []

/-! ## Association-list and set lemmas -/

theorem dictFind_dictSet_self (k : Nat) (v : α) (l : List (Nat × α)) :
    dictFind k (dictSet k v l) = some v := by
  induction l with
  | nil => simp [dictSet, dictFind]
  | cons p rest ih =>
    by_cases h : p.1 = k
    · simp [dictSet, dictFind, h]
    · simp [dictSet, dictFind, h, ih]

theorem dictFind_dictSet_ne (k k2 : Nat) (v : α) (l : List (Nat × α))
    (h : k ≠ k2) : dictFind k (dictSet k2 v l) = dictFind k l := by
  have hk : ¬ k2 = k := fun hh => h hh.symm
  induction l with
  | nil => simp [dictSet, dictFind, hk]
  | cons p rest ih =>
    by_cases h2 : p.1 = k2
    · have h3 : ¬ p.1 = k := fun hh => h (hh.symm.trans h2)
      simp [dictSet, dictFind, h2, h3, hk]
    · simp [dictSet, dictFind, h2, ih]

theorem dictFind_dictDel_self (k : Nat) (l : List (Nat × α)) :
    dictFind k (dictDel k l) = none := by
  induction l with
  | nil => simp [dictDel, dictFind]
  | cons p rest ih =>
    by_cases h : p.1 = k
    · simp [dictDel, h, ih]
    · simp [dictDel, dictFind, h, ih]

theorem dictFind_dictDel_ne (k k2 : Nat) (l : List (Nat × α))
    (h : k ≠ k2) : dictFind k (dictDel k2 l) = dictFind k l := by
  have hk : ¬ k2 = k := fun hh => h hh.symm
  induction l with
  | nil => simp [dictDel]
  | cons p rest ih =>
    by_cases h2 : p.1 = k2
    · have h3 : ¬ p.1 = k := fun hh => h (hh.symm.trans h2)
      simp [dictDel, dictFind, h2, h3, hk, ih]
    · simp [dictDel, dictFind, h2, ih]

theorem dictFind_mem {k : Nat} {v : α} {l : List (Nat × α)}
    (h : dictFind k l = some v) : (k, v) ∈ l := by
  induction l with
  | nil => simp [dictFind] at h
  | cons p rest ih =>
    by_cases h2 : p.1 = k
    · simp [dictFind, h2] at h
      have : (k, v) = p := by
        cases p
        simp at h2 ⊢
        exact ⟨h2.symm, h.symm⟩
      rw [this]
      exact List.mem_cons_self _ _
    · simp [dictFind, h2] at h
      exact List.mem_cons_of_mem _ (ih h)

theorem mem_setAdd {x y : Nat} {s : List Nat} :
    x ∈ setAdd y s ↔ x = y ∨ x ∈ s := by
  unfold setAdd
  by_cases h : y ∈ s
  · simp [h]
    intro hx
    subst hx
    exact h
  · simp [h, or_comm]

theorem mem_setRemove {x y : Nat} {s : List Nat} :
    x ∈ setRemove y s ↔ x ∈ s ∧ x ≠ y := by
  simp [setRemove]

/-! ## Claim theorems -/

/-- C1: `Broadcast(conversationID, payload, excludeChannel)` delivers
the payload to exactly the registered channels of the conversation
other than `excludeChannel`; with two registered channels `c1` and
`c2`, excluding nothing delivers to both and excluding `c1` delivers
only to `c2`. -/
theorem broadcast_delivers_to_registered_except_excluded
    (m : ConnectionManager) (payload : String) (booking_id : Nat)
    (exclude : Option Nat) (chans : List Nat)
    (h : dictFind booking_id m.active_connections = some chans) :
    (ConnectionManager.send_to_booking m payload booking_id exclude
        (fun _ => false)).1
      = chans.filter (fun ws => exclude ≠ some ws) ∧
    (∀ c1 c2, chans = [c1, c2] → c1 ≠ c2 →
      (ConnectionManager.send_to_booking m payload booking_id none
          (fun _ => false)).1 = [c1, c2] ∧
      (ConnectionManager.send_to_booking m payload booking_id (some c1)
          (fun _ => false)).1 = [c2]) := by
  constructor
  · simp [ConnectionManager.send_to_booking, h]
  · intro c1 c2 hc hne
    subst hc
    constructor
    · simp [ConnectionManager.send_to_booking, h]
    · simp [ConnectionManager.send_to_booking, h, hne, Ne.symm hne]

/-- Witness for C1 on a concrete registry with two channels. -/
theorem broadcast_delivers_to_registered_except_excluded_witness :
    (ConnectionManager.send_to_booking ⟨[(42, [1, 2])], [(1, 10), (2, 11)]⟩
        "hi" 42 none (fun _ => false)).1 = [1, 2] ∧
    (ConnectionManager.send_to_booking ⟨[(42, [1, 2])], [(1, 10), (2, 11)]⟩
        "hi" 42 (some 1) (fun _ => false)).1 = [2] :=
  (broadcast_delivers_to_registered_except_excluded
    ⟨[(42, [1, 2])], [(1, 10), (2, 11)]⟩ "hi" 42 none [1, 2]
    (by decide)).2 1 2 rfl (by decide)

/-- C3 (refuted by the code): the exit path taken when a fault other
than `WebSocketDisconnect` escapes the inbound loop closes the socket
with code 1011 but performs no unregistration: the channel and its
reverse-lookup entry survive in the registry, while the
client-initiated close path does unregister.  This contradicts the
claimed guarantee of unregistration on every exit path. -/
theorem fault_exit_skips_unregistration :
    (message_loop (ConnectionManager.connect ConnectionManager.empty 5 42 7)
        5 42 7 "ann" (fun _ => false) [Ev.recvFault]).2.2
      = SessionExit.faultClosed WS_1011_INTERNAL_ERROR ∧
    (message_loop (ConnectionManager.connect ConnectionManager.empty 5 42 7)
        5 42 7 "ann" (fun _ => false) [Ev.recvFault]).1.channelRegistered 5
      = true ∧
    (message_loop (ConnectionManager.connect ConnectionManager.empty 5 42 7)
        5 42 7 "ann" (fun _ => false) [Ev.recvFault]).1.websocket_users
      = [(5, 7)] ∧
    (message_loop (ConnectionManager.connect ConnectionManager.empty 5 42 7)
        5 42 7 "ann" (fun _ => false) [Ev.recvClose]).1.channelRegistered 5
      = false := by
  decide

/-- C6 is refuted as stated: the class of frames outside the wire
contract includes valid JSON that is not a structured record, on which
`message_data.get` raises `AttributeError` and the generic fault
handler closes the connection with code 1011 sending no error frame,
and structured records lacking a recognized type discriminator, which
are ignored with no error frame; both shown here on a registered
session. -/
theorem undecodable_frame_counterexample :
    (message_loop (ConnectionManager.connect ConnectionManager.empty 5 42 7)
        5 42 7 "ann" (fun _ => false) [Ev.recv Inbound.nonRecord]).2.2
      = SessionExit.faultClosed 1011 ∧
    (message_loop (ConnectionManager.connect ConnectionManager.empty 5 42 7)
        5 42 7 "ann" (fun _ => false) [Ev.recv Inbound.nonRecord]).2.1
      = [] ∧
    (message_loop (ConnectionManager.connect ConnectionManager.empty 5 42 7)
        5 42 7 "ann" (fun _ => false) [Ev.recv Inbound.other]).2.1
      = [] ∧
    (message_loop (ConnectionManager.connect ConnectionManager.empty 5 42 7)
        5 42 7 "ann" (fun _ => false) [Ev.recv Inbound.other]).2.2
      = SessionExit.stillOpen := by
  decide

/-- C6 as amended: of the inbound frames outside the wire contract,
exactly those on which JSON decoding itself fails are answered with
the in-band error frame, the registry state passed on unchanged and
the session continuing; a decodable frame that is not a structured
record escapes as an `AttributeError` that the generic fault handler
answers by closing the connection with code 1011, sending no error
frame and performing no unregistration; and a structured record
without a recognized type discriminator is ignored silently, the
session continuing with no error frame and the state unchanged. -/
theorem undecodable_frame_handling_by_shape
    (m : ConnectionManager) (ws booking_id user_id : Nat)
    (user_name raw : String) (sendFails : Nat → Bool) (evs : List Ev) :
    message_loop m ws booking_id user_id user_name sendFails
        (Ev.recv (Inbound.malformed raw) :: evs)
      = ((message_loop m ws booking_id user_id user_name sendFails evs).1,
         error_frame ::
           (message_loop m ws booking_id user_id user_name sendFails
             evs).2.1,
         (message_loop m ws booking_id user_id user_name sendFails
           evs).2.2) ∧
    message_loop m ws booking_id user_id user_name sendFails
        [Ev.recv (Inbound.malformed raw)]
      = (m, [error_frame], SessionExit.stillOpen) ∧
    message_loop m ws booking_id user_id user_name sendFails
        (Ev.recv Inbound.nonRecord :: evs)
      = (m, [], SessionExit.faultClosed WS_1011_INTERNAL_ERROR) ∧
    message_loop m ws booking_id user_id user_name sendFails
        (Ev.recv Inbound.other :: evs)
      = message_loop m ws booking_id user_id user_name sendFails evs := by
  exact ⟨rfl, rfl, rfl, rfl⟩

/-- C7: the REST `send_message` path broadcasts exactly when the
durable append succeeds: on success `send_to_booking` is invoked with
the encoded new message, its booking id and no exclusion, and the
response is 201 with the message; on `ValueError` the response is a
400 and no broadcast call, delivery or registry change happens. -/
theorem send_message_broadcasts_iff_append_succeeds
    (get_booking_by_id : Nat → Option Booking) (m : ConnectionManager)
    (message : MessageCreate) (sender_id : Nat) (sendFails : Nat → Bool) :
    (∀ dbm, create_message get_booking_by_id message sender_id = .ok dbm →
      (send_message get_booking_by_id m message sender_id
          sendFails).broadcast_call
        = some (encode_new_message dbm, dbm.booking_id, none) ∧
      (send_message get_booking_by_id m message sender_id
          sendFails).response = .ok dbm) ∧
    (∀ e, create_message get_booking_by_id message sender_id = .error e →
      (send_message get_booking_by_id m message sender_id
          sendFails).broadcast_call = none ∧
      (send_message get_booking_by_id m message sender_id
          sendFails).delivered = [] ∧
      (send_message get_booking_by_id m message sender_id
          sendFails).manager = m ∧
      (send_message get_booking_by_id m message sender_id
          sendFails).response = .error (400, e)) := by
  constructor
  · intro dbm hok
    simp [send_message, hok]
  · intro e herr
    simp [send_message, herr]

/-- Witness for C7 on a concrete booking and message. -/
theorem send_message_broadcasts_iff_append_succeeds_witness :
    (send_message (fun _ => some ⟨10, 20⟩) ConnectionManager.empty
        ⟨1, 20, "hello"⟩ 10 (fun _ => false)).broadcast_call
      = some (encode_new_message ⟨1, 10, 20, "hello"⟩, 1, none) ∧
    (send_message (fun _ => some ⟨10, 20⟩) ConnectionManager.empty
        ⟨1, 20, "hello"⟩ 10 (fun _ => false)).response
      = .ok ⟨1, 10, 20, "hello"⟩ :=
  (send_message_broadcasts_iff_append_succeeds (fun _ => some ⟨10, 20⟩)
    ConnectionManager.empty ⟨1, 20, "hello"⟩ 10 (fun _ => false)).1
    ⟨1, 10, 20, "hello"⟩ rfl

/-- C10: `create_message` persists a message exactly when the booking
exists, the sender is a participant, the recipient differs from the
sender and the recipient is a participant; the persisted row copies
the supplied booking id, sender id, recipient id and content; in every
other case it raises `ValueError`. -/
theorem create_message_validates_participants
    (get_booking_by_id : Nat → Option Booking) (message : MessageCreate)
    (sender_id : Nat) :
    ((∃ b, get_booking_by_id message.booking_id = some b ∧
        (sender_id = b.user_id ∨ sender_id = b.guide_id) ∧
        message.recipient_id ≠ sender_id ∧
        (message.recipient_id = b.user_id ∨
          message.recipient_id = b.guide_id)) ↔
      create_message get_booking_by_id message sender_id
        = .ok ⟨message.booking_id, sender_id, message.recipient_id,
            message.content⟩) ∧
    (∀ dbm, create_message get_booking_by_id message sender_id
        = .ok dbm →
      dbm = ⟨message.booking_id, sender_id, message.recipient_id,
        message.content⟩) ∧
    ((¬ ∃ b, get_booking_by_id message.booking_id = some b ∧
        (sender_id = b.user_id ∨ sender_id = b.guide_id) ∧
        message.recipient_id ≠ sender_id ∧
        (message.recipient_id = b.user_id ∨
          message.recipient_id = b.guide_id)) →
      ∃ e, create_message get_booking_by_id message sender_id
        = .error e) := by
  cases hgb : get_booking_by_id message.booking_id with
  | none =>
    have hcreate : create_message get_booking_by_id message sender_id
        = .error "Booking not found" := by
      simp [create_message, hgb]
    refine ⟨?_, ?_, ?_⟩
    · rw [hcreate]
      constructor
      · rintro ⟨b1, hb1, _⟩
        simp at hb1
      · intro h
        simp at h
    · intro dbm hok
      rw [hcreate] at hok
      simp at hok
    · intro _
      exact ⟨_, hcreate⟩
  | some b =>
    by_cases h1 : sender_id = b.user_id ∨ sender_id = b.guide_id
    · have hne : ¬ (sender_id ≠ b.user_id ∧ sender_id ≠ b.guide_id) :=
        fun hh => (not_or.mpr hh) h1
      by_cases h2 : message.recipient_id = sender_id
      · have hcreate : create_message get_booking_by_id message sender_id
            = .error "Cannot send message to yourself" := by
          simp [create_message, hgb, hne, h2]
        refine ⟨?_, ?_, ?_⟩
        · rw [hcreate]
          constructor
          · rintro ⟨b1, _, _, hns, _⟩
            exact absurd h2 hns
          · intro h
            simp at h
        · intro dbm hok
          rw [hcreate] at hok
          simp at hok
        · intro _
          exact ⟨_, hcreate⟩
      · by_cases h3 : message.recipient_id = b.user_id ∨
            message.recipient_id = b.guide_id
        · have hne3 : ¬ (message.recipient_id ≠ b.user_id ∧
              message.recipient_id ≠ b.guide_id) :=
            fun hh => (not_or.mpr hh) h3
          have hcreate : create_message get_booking_by_id message sender_id
              = .ok ⟨message.booking_id, sender_id, message.recipient_id,
                  message.content⟩ := by
            simp [create_message, hgb, hne, h2, hne3]
          refine ⟨?_, ?_, ?_⟩
          · rw [hcreate]
            exact ⟨fun _ => rfl, fun _ => ⟨b, rfl, h1, h2, h3⟩⟩
          · intro dbm hok
            rw [hcreate] at hok
            simpa using hok.symm
          · intro hno
            exact absurd ⟨b, rfl, h1, h2, h3⟩ hno
        · have hne3 : message.recipient_id ≠ b.user_id ∧
              message.recipient_id ≠ b.guide_id := not_or.mp h3
          have hcreate : create_message get_booking_by_id message sender_id
              = .error "Recipient must be involved in this booking" := by
            simp [create_message, hgb, hne, h2, hne3]
          refine ⟨?_, ?_, ?_⟩
          · rw [hcreate]
            constructor
            · rintro ⟨b1, hb1, _, _, h3b⟩
              injection hb1 with hbb
              subst hbb
              exact absurd h3b h3
            · intro h
              simp at h
          · intro dbm hok
            rw [hcreate] at hok
            simp at hok
          · intro _
            exact ⟨_, hcreate⟩
    · have hne : sender_id ≠ b.user_id ∧ sender_id ≠ b.guide_id :=
        not_or.mp h1
      have hcreate : create_message get_booking_by_id message sender_id
          = .error
            "Access denied. You can only send messages in your own bookings"
          := by
        simp [create_message, hgb, hne]
      refine ⟨?_, ?_, ?_⟩
      · rw [hcreate]
        constructor
        · rintro ⟨b1, hb1, h1b, _, _⟩
          injection hb1 with hbb
          subst hbb
          exact absurd h1b h1
        · intro h
          simp at h
      · intro dbm hok
        rw [hcreate] at hok
        simp at hok
      · intro _
        exact ⟨_, hcreate⟩

/-- Witness for C10 on a concrete booking and message. -/
theorem create_message_validates_participants_witness :
    create_message (fun _ => some ⟨10, 20⟩) ⟨1, 20, "hi"⟩ 10
      = .ok ⟨1, 10, 20, "hi"⟩ :=
  (create_message_validates_participants (fun _ => some ⟨10, 20⟩)
    ⟨1, 20, "hi"⟩ 10).1.mp
    ⟨⟨10, 20⟩, rfl, Or.inl rfl, by decide, Or.inr rfl⟩

/-- C4: the websocket gate registers the channel and sends the
`connected` confirmation exactly when the credential is present, it
verifies to an email that resolves to a user, the booking exists and
the user is one of its two participants; every rejected attempt leaves
the registry untouched and sends no frame. -/
theorem websocket_gate_registers_only_authorized
    (verify_token : String → Option String)
    (get_user_by_email : String → Option Nat)
    (get_booking_by_id : Nat → Option Booking) (m : ConnectionManager)
    (ws booking_id : Nat) (token : Option String) :
    ((∃ uid, (websocket_auth verify_token get_user_by_email
        get_booking_by_id m ws booking_id token).2.2
          = WsOutcome.opened uid) ↔
      (∃ t email uid b, token = some t ∧ verify_token t = some email ∧
        get_user_by_email email = some uid ∧
        get_booking_by_id booking_id = some b ∧
        (uid = b.user_id ∨ uid = b.guide_id))) ∧
    (∀ code reason, (websocket_auth verify_token get_user_by_email
        get_booking_by_id m ws booking_id token).2.2
          = WsOutcome.closed code reason →
      (websocket_auth verify_token get_user_by_email get_booking_by_id m
        ws booking_id token).1 = m ∧
      (websocket_auth verify_token get_user_by_email get_booking_by_id m
        ws booking_id token).2.1 = []) ∧
    (∀ uid, (websocket_auth verify_token get_user_by_email
        get_booking_by_id m ws booking_id token).2.2
          = WsOutcome.opened uid →
      (websocket_auth verify_token get_user_by_email get_booking_by_id m
        ws booking_id token).1
          = ConnectionManager.connect m ws booking_id uid ∧
      (websocket_auth verify_token get_user_by_email get_booking_by_id m
        ws booking_id token).2.1 = [connected_frame booking_id]) := by
  cases token with
  | none => simp [websocket_auth]
  | some t =>
    cases hv : verify_token t with
    | none => simp [websocket_auth, hv]
    | some email =>
      cases hu : get_user_by_email email with
      | none => simp [websocket_auth, hv, hu]
      | some uid =>
        cases hb : get_booking_by_id booking_id with
        | none => simp [websocket_auth, hv, hu, hb]
        | some b =>
          by_cases hp : uid = b.user_id ∨ uid = b.guide_id
          · simp [websocket_auth, hv, hu, hb, hp]
          · simp [websocket_auth, hv, hu, hb, hp]

/-- Witness for C4 on a concrete rejected and a concrete accepted
attempt. -/
theorem websocket_gate_registers_only_authorized_witness :
    (websocket_auth (fun _ => some "e") (fun _ => some 7)
        (fun _ => some ⟨7, 8⟩) ConnectionManager.empty 5 42
        (some "tok")).1
      = ConnectionManager.connect ConnectionManager.empty 5 42 7 ∧
    (websocket_auth (fun _ => some "e") (fun _ => some 7)
        (fun _ => some ⟨7, 8⟩) ConnectionManager.empty 5 42
        (some "tok")).2.1 = [connected_frame 42] :=
  (websocket_gate_registers_only_authorized (fun _ => some "e")
    (fun _ => some 7) (fun _ => some ⟨7, 8⟩) ConnectionManager.empty 5 42
    (some "tok")).2.2 7 rfl

/-- C5 is refuted by the code: an invalid credential is rejected by
`verify_token` raising, which the handler catches in its generic
`except Exception` block, closing with internal-error code 1011 rather
than the policy-violation code 1008; moreover the Unauthorized cause
closes with the same code 1008 as the credential-absent cause, so the
three causes do not each get a distinct code. -/
theorem close_codes_counterexample :
    (websocket_auth (fun _ => none) (fun _ => none) (fun _ => none)
        ConnectionManager.empty 5 42 (some "bad")).2.2
      = WsOutcome.closed 1011 "Server error" ∧
    (1011 : Nat) ≠ WS_1008_POLICY_VIOLATION ∧
    (websocket_auth (fun _ => none) (fun _ => none) (fun _ => none)
        ConnectionManager.empty 5 42 none).2.2
      = WsOutcome.closed 1008 "Authentication required" ∧
    (websocket_auth (fun _ => some "e") (fun _ => some 9)
        (fun _ => some ⟨7, 8⟩) ConnectionManager.empty 5 42
        (some "tok")).2.2
      = WsOutcome.closed 1008 "Access denied" := by
  decide

/-- C5 as amended: a missing credential, an unknown user and a
non-participant user each close immediately with policy-violation code
1008; a missing booking closes with code 1003, distinct from the
authentication and authorization code; an invalid credential is
answered through the generic fault handler with internal-error code
1011. -/
theorem close_codes_per_cause (verify_token : String → Option String)
    (get_user_by_email : String → Option Nat)
    (get_booking_by_id : Nat → Option Booking) (m : ConnectionManager)
    (ws booking_id : Nat) :
    (websocket_auth verify_token get_user_by_email get_booking_by_id m
        ws booking_id none).2.2
      = WsOutcome.closed WS_1008_POLICY_VIOLATION
          "Authentication required" ∧
    (∀ t, verify_token t = none →
      (websocket_auth verify_token get_user_by_email get_booking_by_id m
          ws booking_id (some t)).2.2
        = WsOutcome.closed WS_1011_INTERNAL_ERROR "Server error") ∧
    (∀ t email, verify_token t = some email →
      get_user_by_email email = none →
      (websocket_auth verify_token get_user_by_email get_booking_by_id m
          ws booking_id (some t)).2.2
        = WsOutcome.closed WS_1008_POLICY_VIOLATION "Invalid user") ∧
    (∀ t email uid, verify_token t = some email →
      get_user_by_email email = some uid →
      get_booking_by_id booking_id = none →
      (websocket_auth verify_token get_user_by_email get_booking_by_id m
          ws booking_id (some t)).2.2
        = WsOutcome.closed WS_1003_UNSUPPORTED_DATA "Booking not found") ∧
    (∀ t email uid b, verify_token t = some email →
      get_user_by_email email = some uid →
      get_booking_by_id booking_id = some b →
      uid ≠ b.user_id → uid ≠ b.guide_id →
      (websocket_auth verify_token get_user_by_email get_booking_by_id m
          ws booking_id (some t)).2.2
        = WsOutcome.closed WS_1008_POLICY_VIOLATION "Access denied") ∧
    WS_1003_UNSUPPORTED_DATA ≠ WS_1008_POLICY_VIOLATION := by
  refine ⟨rfl, ?_, ?_, ?_, ?_, by decide⟩
  · intro t hv
    simp [websocket_auth, hv]
  · intro t email hv hu
    simp [websocket_auth, hv, hu]
  · intro t email uid hv hu hb
    simp [websocket_auth, hv, hu, hb]
  · intro t email uid b hv hu hb h1 h2
    simp [websocket_auth, hv, hu, hb, h1, h2]

/-- Witness for the amended C5 on concrete inputs for each cause. -/
theorem close_codes_per_cause_witness :
    (websocket_auth (fun _ => none) (fun _ => none) (fun _ => none)
        ConnectionManager.empty 5 42 (some "bad")).2.2
      = WsOutcome.closed WS_1011_INTERNAL_ERROR "Server error" ∧
    (websocket_auth (fun _ => some "e") (fun _ => some 9)
        (fun _ => some ⟨7, 8⟩) ConnectionManager.empty 5 42
        (some "tok")).2.2
      = WsOutcome.closed WS_1008_POLICY_VIOLATION "Access denied" :=
  ⟨(close_codes_per_cause (fun _ => none) (fun _ => none) (fun _ => none)
      ConnectionManager.empty 5 42).2.1 "bad" rfl,
    (close_codes_per_cause (fun _ => some "e") (fun _ => some 9)
      (fun _ => some ⟨7, 8⟩) ConnectionManager.empty 5 42).2.2.2.2.1
      "tok" "e" 9 ⟨7, 8⟩ rfl rfl rfl (by decide) (by decide)⟩

/-! ## Registry helper lemmas -/

theorem mem_dictSet {p : Nat × α} {k : Nat} {v : α} {l : List (Nat × α)}
    (h : p ∈ dictSet k v l) : p = (k, v) ∨ p ∈ l := by
  induction l with
  | nil =>
    simp [dictSet] at h
    exact Or.inl h
  | cons q rest ih =>
    by_cases h2 : q.1 = k
    · simp [dictSet, h2] at h
      rcases h with h | h
      · exact Or.inl h
      · exact Or.inr (List.mem_cons_of_mem _ h)
    · simp [dictSet, h2] at h
      rcases h with h | h
      · exact Or.inr (by simp [h])
      · rcases ih h with h | h
        · exact Or.inl h
        · exact Or.inr (List.mem_cons_of_mem _ h)

theorem mem_dictDel {p : Nat × α} {k : Nat} {l : List (Nat × α)}
    (h : p ∈ dictDel k l) : p ∈ l := by
  induction l with
  | nil => simp [dictDel] at h
  | cons q rest ih =>
    by_cases h2 : q.1 = k
    · simp [dictDel, h2] at h
      exact List.mem_cons_of_mem _ (ih h)
    · simp [dictDel, h2] at h
      rcases h with h | h
      · simp [h]
      · exact List.mem_cons_of_mem _ (ih h)

theorem setAdd_ne_nil (x : Nat) (s : List Nat) : setAdd x s ≠ [] := by
  intro h
  have : x ∈ setAdd x s := mem_setAdd.mpr (Or.inl rfl)
  rw [h] at this
  simp at this

theorem inRoom_eq_false_iff (m : ConnectionManager) (booking_id ws : Nat) :
    m.inRoom booking_id ws = false ↔
      ∀ conns, dictFind booking_id m.active_connections = some conns →
        ws ∉ conns := by
  unfold ConnectionManager.inRoom
  cases h : dictFind booking_id m.active_connections with
  | none => simp
  | some conns => simp

theorem channelRegistered_false {m : ConnectionManager} {ws : Nat}
    (h : m.channelRegistered ws = false) :
    ∀ b conns, dictFind b m.active_connections = some conns →
      ws ∉ conns := by
  intro b conns hf hmem
  have hp := dictFind_mem hf
  unfold ConnectionManager.channelRegistered at h
  rw [List.any_eq_false] at h
  have := h _ hp
  simp at this
  exact this hmem

theorem empty_wf : ConnectionManager.empty.wf := by
  refine ⟨?_, ?_, ?_⟩
  · intro b conns hf
    simp [ConnectionManager.empty, dictFind] at hf
  · intro w u hf
    simp [ConnectionManager.empty, dictFind] at hf
  · intro b1 b2 s1 s2 w h1 h2
    simp [ConnectionManager.empty, dictFind] at h1

theorem disconnect_not_inRoom_self (m : ConnectionManager)
    (ws booking_id : Nat) :
    (m.disconnect ws booking_id).inRoom booking_id ws = false := by
  rw [inRoom_eq_false_iff]
  intro conns hf hmem
  unfold ConnectionManager.disconnect at hf
  cases hA : dictFind booking_id m.active_connections with
  | none =>
    simp [hA] at hf
  | some conns0 =>
    by_cases hc2 : setRemove ws conns0 = []
    · simp [hA, hc2] at hf
      rw [dictFind_dictDel_self] at hf
      simp at hf
    · simp [hA, hc2] at hf
      rw [dictFind_dictSet_self] at hf
      injection hf with hf
      subst hf
      exact absurd (mem_setRemove.mp hmem).2 (by simp)

theorem disconnect_users_none_self (m : ConnectionManager)
    (ws booking_id : Nat) :
    dictFind ws (m.disconnect ws booking_id).websocket_users = none := by
  unfold ConnectionManager.disconnect
  exact dictFind_dictDel_self ws m.websocket_users

theorem disconnect_room_subset {m : ConnectionManager}
    {ws booking_id b : Nat} {c : List Nat}
    (h : dictFind b (m.disconnect ws booking_id).active_connections
      = some c) :
    ∃ c0, dictFind b m.active_connections = some c0 ∧ ∀ x ∈ c, x ∈ c0 := by
  unfold ConnectionManager.disconnect at h
  cases hA : dictFind booking_id m.active_connections with
  | none =>
    simp [hA] at h
    exact ⟨c, h, fun x hx => hx⟩
  | some conns0 =>
    by_cases hc2 : setRemove ws conns0 = []
    · simp [hA, hc2] at h
      by_cases hb : b = booking_id
      · subst hb
        rw [dictFind_dictDel_self] at h
        simp at h
      · rw [dictFind_dictDel_ne _ _ _ hb] at h
        exact ⟨c, h, fun x hx => hx⟩
    · simp [hA, hc2] at h
      by_cases hb : b = booking_id
      · subst hb
        rw [dictFind_dictSet_self] at h
        injection h with h
        subst h
        exact ⟨conns0, hA, fun x hx => (mem_setRemove.mp hx).1⟩
      · rw [dictFind_dictSet_ne _ _ _ _ hb] at h
        exact ⟨c, h, fun x hx => hx⟩

theorem disconnect_preserves_not_inRoom {m : ConnectionManager}
    {booking_id ws : Nat} (ws2 booking_id2 : Nat)
    (h : m.inRoom booking_id ws = false) :
    (m.disconnect ws2 booking_id2).inRoom booking_id ws = false := by
  rw [inRoom_eq_false_iff] at h ⊢
  intro conns hf hmem
  obtain ⟨c0, hc0, hsub⟩ := disconnect_room_subset hf
  exact h c0 hc0 (hsub _ hmem)

theorem disconnect_preserves_users_none {m : ConnectionManager} {ws : Nat}
    (ws2 booking_id2 : Nat)
    (h : dictFind ws m.websocket_users = none) :
    dictFind ws (m.disconnect ws2 booking_id2).websocket_users = none := by
  unfold ConnectionManager.disconnect
  by_cases hw : ws = ws2
  · subst hw
    exact dictFind_dictDel_self ws m.websocket_users
  · rw [dictFind_dictDel_ne _ _ _ hw]
    exact h

theorem foldl_disconnect_preserves (booking_id : Nat) (l : List Nat) :
    ∀ (m : ConnectionManager) (ws : Nat),
      m.inRoom booking_id ws = false →
      dictFind ws m.websocket_users = none →
      (l.foldl (fun acc w => acc.disconnect w booking_id) m).inRoom
          booking_id ws = false ∧
      dictFind ws
        (l.foldl (fun acc w => acc.disconnect w booking_id)
          m).websocket_users = none := by
  induction l with
  | nil => exact fun m ws h1 h2 => ⟨h1, h2⟩
  | cons w l ih =>
    intro m ws h1 h2
    exact ih _ ws (disconnect_preserves_not_inRoom w booking_id h1)
      (disconnect_preserves_users_none w booking_id h2)

theorem foldl_disconnect_removes (booking_id : Nat) (l : List Nat) :
    ∀ (m : ConnectionManager) (ws : Nat), ws ∈ l →
      (l.foldl (fun acc w => acc.disconnect w booking_id) m).inRoom
          booking_id ws = false ∧
      dictFind ws
        (l.foldl (fun acc w => acc.disconnect w booking_id)
          m).websocket_users = none := by
  induction l with
  | nil =>
    intro m ws h
    simp at h
  | cons w l ih =>
    intro m ws h
    by_cases hw : ws = w
    · subst hw
      exact foldl_disconnect_preserves booking_id l _ ws
        (disconnect_not_inRoom_self m ws booking_id)
        (disconnect_users_none_self m ws booking_id)
    · have hmem : ws ∈ l := by
        rcases List.mem_cons.mp h with h | h
        · exact absurd h hw
        · exact h
      exact ih _ ws hmem

/-- C2: a delivery failure on one channel does not prevent delivery to
the other registered channels of the conversation, and every failed
channel is removed by the broadcast from the conversation room and
from the reverse lookup. -/
theorem broadcast_failures_isolated_and_unregistered
    (m : ConnectionManager) (payload : String) (booking_id : Nat)
    (exclude : Option Nat) (sendFails : Nat → Bool) (chans : List Nat)
    (h : dictFind booking_id m.active_connections = some chans) :
    (m.send_to_booking payload booking_id exclude sendFails).1
      = (chans.filter (fun ws => exclude ≠ some ws)).filter
          (fun ws => !sendFails ws) ∧
    (∀ ws ∈ chans, exclude ≠ some ws → sendFails ws = true →
      (m.send_to_booking payload booking_id exclude
          sendFails).2.inRoom booking_id ws = false ∧
      dictFind ws (m.send_to_booking payload booking_id exclude
          sendFails).2.websocket_users = none) := by
  constructor
  · simp [ConnectionManager.send_to_booking, h]
  · intro ws hmem hexc hfail
    have hin : ws ∈ (chans.filter (fun w => exclude ≠ some w)).filter
        (fun w => sendFails w) := by
      rw [List.mem_filter, List.mem_filter]
      refine ⟨⟨hmem, ?_⟩, hfail⟩
      simp [hexc]
    have hsend : (m.send_to_booking payload booking_id exclude
        sendFails).2
      = ((chans.filter (fun w => exclude ≠ some w)).filter
          (fun w => sendFails w)).foldl
          (fun acc w => acc.disconnect w booking_id) m := by
      simp [ConnectionManager.send_to_booking, h]
    rw [hsend]
    exact foldl_disconnect_removes booking_id _ m ws hin

/-- Witness for C2: channel 1 fails, channel 2 still receives the
payload, and channel 1 is removed from the room and the reverse
lookup. -/
theorem broadcast_failures_isolated_and_unregistered_witness :
    (ConnectionManager.send_to_booking ⟨[(42, [1, 2])], [(1, 10), (2, 11)]⟩
        "hi" 42 none (fun w => decide (w = 1))).1 = [2] ∧
    (ConnectionManager.send_to_booking ⟨[(42, [1, 2])], [(1, 10), (2, 11)]⟩
        "hi" 42 none (fun w => decide (w = 1))).2.inRoom 42 1 = false ∧
    dictFind 1 (ConnectionManager.send_to_booking
        ⟨[(42, [1, 2])], [(1, 10), (2, 11)]⟩ "hi" 42 none
        (fun w => decide (w = 1))).2.websocket_users = none := by
  have hthm := broadcast_failures_isolated_and_unregistered
    ⟨[(42, [1, 2])], [(1, 10), (2, 11)]⟩ "hi" 42 none
    (fun w => decide (w = 1)) [1, 2] (by decide)
  have hrm := hthm.2 1 (by decide) (by decide) (by decide)
  exact ⟨by rw [hthm.1]; decide, hrm.1, hrm.2⟩

theorem connect_active (m : ConnectionManager) (ws booking_id user_id : Nat) :
    (m.connect ws booking_id user_id).active_connections
      = dictSet booking_id
          (setAdd ws ((dictFind booking_id m.active_connections).getD []))
          m.active_connections := rfl

theorem connect_users (m : ConnectionManager) (ws booking_id user_id : Nat) :
    (m.connect ws booking_id user_id).websocket_users
      = dictSet ws user_id m.websocket_users := rfl

theorem disconnect_users (m : ConnectionManager) (ws booking_id : Nat) :
    (m.disconnect ws booking_id).websocket_users
      = dictDel ws m.websocket_users := rfl

theorem disconnect_active_none (m : ConnectionManager) (ws booking_id : Nat)
    (h : dictFind booking_id m.active_connections = none) :
    (m.disconnect ws booking_id).active_connections
      = m.active_connections := by
  simp [ConnectionManager.disconnect, h]

theorem disconnect_active_some_nil (m : ConnectionManager)
    (ws booking_id : Nat) (conns : List Nat)
    (h : dictFind booking_id m.active_connections = some conns)
    (h2 : setRemove ws conns = []) :
    (m.disconnect ws booking_id).active_connections
      = dictDel booking_id m.active_connections := by
  simp [ConnectionManager.disconnect, h, h2]

theorem disconnect_active_some (m : ConnectionManager)
    (ws booking_id : Nat) (conns : List Nat)
    (h : dictFind booking_id m.active_connections = some conns)
    (h2 : setRemove ws conns ≠ []) :
    (m.disconnect ws booking_id).active_connections
      = dictSet booking_id (setRemove ws conns) m.active_connections := by
  simp [ConnectionManager.disconnect, h, h2]

theorem connect_wf (m : ConnectionManager) (ws booking_id user_id : Nat)
    (hwf : m.wf) (hreg : m.channelRegistered ws = false)
    (husers : dictFind ws m.websocket_users = none) :
    (m.connect ws booking_id user_id).wf := by
  obtain ⟨h1, h2, h3⟩ := hwf
  have hfresh := channelRegistered_false hreg
  refine ⟨?_, ?_, ?_⟩
  · intro b c hf w hw
    rw [connect_active] at hf
    rw [connect_users]
    by_cases hb : b = booking_id
    · subst hb
      rw [dictFind_dictSet_self] at hf
      injection hf with hf
      subst hf
      rcases mem_setAdd.mp hw with hws | hwc
      · subst hws
        rw [dictFind_dictSet_self]
        simp
      · cases hA : dictFind b m.active_connections with
        | none =>
          rw [hA] at hwc
          simp at hwc
        | some c0 =>
          rw [hA] at hwc
          simp at hwc
          have hold := h1 b c0 hA w hwc
          by_cases hww : w = ws
          · subst hww
            rw [dictFind_dictSet_self]
            simp
          · rw [dictFind_dictSet_ne _ _ _ _ hww]
            exact hold
    · rw [dictFind_dictSet_ne _ _ _ _ hb] at hf
      have hold := h1 b c hf w hw
      by_cases hww : w = ws
      · subst hww
        rw [dictFind_dictSet_self]
        simp
      · rw [dictFind_dictSet_ne _ _ _ _ hww]
        exact hold
  · intro w u hf
    rw [connect_users] at hf
    by_cases hww : w = ws
    · subst hww
      refine ⟨booking_id,
        setAdd w ((dictFind booking_id m.active_connections).getD []),
        ?_, mem_setAdd.mpr (Or.inl rfl)⟩
      rw [connect_active]
      exact dictFind_dictSet_self _ _ _
    · rw [dictFind_dictSet_ne _ _ _ _ hww] at hf
      obtain ⟨b, c, hbc, hwc⟩ := h2 w u hf
      by_cases hb : b = booking_id
      · subst hb
        refine ⟨b,
          setAdd ws ((dictFind b m.active_connections).getD []), ?_, ?_⟩
        · rw [connect_active]
          exact dictFind_dictSet_self _ _ _
        · rw [hbc]
          simp only [Option.getD_some]
          exact mem_setAdd.mpr (Or.inr hwc)
      · refine ⟨b, c, ?_, hwc⟩
        rw [connect_active]
        rw [dictFind_dictSet_ne _ _ _ _ hb]
        exact hbc
  · intro b1 b2 s1 s2 w hf1 hf2 hw1 hw2
    rw [connect_active] at hf1 hf2
    by_cases hb1 : b1 = booking_id <;> by_cases hb2 : b2 = booking_id
    · exact hb1.trans hb2.symm
    · subst hb1
      rw [dictFind_dictSet_self] at hf1
      injection hf1 with hf1
      subst hf1
      rw [dictFind_dictSet_ne _ _ _ _ hb2] at hf2
      rcases mem_setAdd.mp hw1 with hws | hwc
      · subst hws
        exact absurd hw2 (hfresh b2 s2 hf2)
      · cases hA : dictFind b1 m.active_connections with
        | none =>
          rw [hA] at hwc
          simp at hwc
        | some c0 =>
          rw [hA] at hwc
          simp at hwc
          exact h3 b1 b2 c0 s2 w hA hf2 hwc hw2
    · subst hb2
      rw [dictFind_dictSet_self] at hf2
      injection hf2 with hf2
      subst hf2
      rw [dictFind_dictSet_ne _ _ _ _ hb1] at hf1
      rcases mem_setAdd.mp hw2 with hws | hwc
      · subst hws
        exact absurd hw1 (hfresh b1 s1 hf1)
      · cases hA : dictFind b2 m.active_connections with
        | none =>
          rw [hA] at hwc
          simp at hwc
        | some c0 =>
          rw [hA] at hwc
          simp at hwc
          exact h3 b1 b2 s1 c0 w hf1 hA hw1 hwc
    · rw [dictFind_dictSet_ne _ _ _ _ hb1] at hf1
      rw [dictFind_dictSet_ne _ _ _ _ hb2] at hf2
      exact h3 b1 b2 s1 s2 w hf1 hf2 hw1 hw2

theorem disconnect_wf (m : ConnectionManager) (ws booking_id : Nat)
    (hwf : m.wf) (honly : onlyIn m ws booking_id) :
    (m.disconnect ws booking_id).wf := by
  obtain ⟨h1, h2, h3⟩ := hwf
  cases hA : dictFind booking_id m.active_connections with
  | none =>
    have hact := disconnect_active_none m ws booking_id hA
    refine ⟨?_, ?_, ?_⟩
    · intro b c hf w hw
      rw [hact] at hf
      rw [disconnect_users]
      have hwws : w ≠ ws := by
        intro hh
        subst hh
        have hb := honly b c hf hw
        subst hb
        rw [hA] at hf
        exact Option.noConfusion hf
      rw [dictFind_dictDel_ne _ _ _ hwws]
      exact h1 b c hf w hw
    · intro w u hf
      rw [disconnect_users] at hf
      have hwws : w ≠ ws := by
        intro hh
        subst hh
        rw [dictFind_dictDel_self] at hf
        exact Option.noConfusion hf
      rw [dictFind_dictDel_ne _ _ _ hwws] at hf
      obtain ⟨b, c, hbc, hwc⟩ := h2 w u hf
      exact ⟨b, c, by rw [hact]; exact hbc, hwc⟩
    · intro b1 b2 s1 s2 w hf1 hf2 hw1 hw2
      rw [hact] at hf1 hf2
      exact h3 b1 b2 s1 s2 w hf1 hf2 hw1 hw2
  | some conns =>
    by_cases hc2 : setRemove ws conns = []
    · have hact := disconnect_active_some_nil m ws booking_id conns hA hc2
      refine ⟨?_, ?_, ?_⟩
      · intro b c hf w hw
        rw [hact] at hf
        have hb : b ≠ booking_id := by
          intro hh
          subst hh
          rw [dictFind_dictDel_self] at hf
          exact Option.noConfusion hf
        rw [dictFind_dictDel_ne _ _ _ hb] at hf
        have hwws : w ≠ ws := by
          intro hh
          subst hh
          exact hb (honly b c hf hw)
        rw [disconnect_users, dictFind_dictDel_ne _ _ _ hwws]
        exact h1 b c hf w hw
      · intro w u hf
        rw [disconnect_users] at hf
        have hwws : w ≠ ws := by
          intro hh
          subst hh
          rw [dictFind_dictDel_self] at hf
          exact Option.noConfusion hf
        rw [dictFind_dictDel_ne _ _ _ hwws] at hf
        obtain ⟨b, c, hbc, hwc⟩ := h2 w u hf
        have hb : b ≠ booking_id := by
          intro hh
          subst hh
          rw [hA] at hbc
          injection hbc with hbc
          subst hbc
          have hmem : w ∈ setRemove ws conns := mem_setRemove.mpr ⟨hwc, hwws⟩
          rw [hc2] at hmem
          simp at hmem
        refine ⟨b, c, ?_, hwc⟩
        rw [hact, dictFind_dictDel_ne _ _ _ hb]
        exact hbc
      · intro b1 b2 s1 s2 w hf1 hf2 hw1 hw2
        rw [hact] at hf1 hf2
        have hb1 : b1 ≠ booking_id := by
          intro hh
          subst hh
          rw [dictFind_dictDel_self] at hf1
          exact Option.noConfusion hf1
        have hb2 : b2 ≠ booking_id := by
          intro hh
          subst hh
          rw [dictFind_dictDel_self] at hf2
          exact Option.noConfusion hf2
        rw [dictFind_dictDel_ne _ _ _ hb1] at hf1
        rw [dictFind_dictDel_ne _ _ _ hb2] at hf2
        exact h3 b1 b2 s1 s2 w hf1 hf2 hw1 hw2
    · have hact := disconnect_active_some m ws booking_id conns hA hc2
      refine ⟨?_, ?_, ?_⟩
      · intro b c hf w hw
        rw [hact] at hf
        rw [disconnect_users]
        by_cases hb : b = booking_id
        · subst hb
          rw [dictFind_dictSet_self] at hf
          injection hf with hf
          subst hf
          obtain ⟨hwc, hwws⟩ := mem_setRemove.mp hw
          rw [dictFind_dictDel_ne _ _ _ hwws]
          exact h1 b conns hA w hwc
        · rw [dictFind_dictSet_ne _ _ _ _ hb] at hf
          have hwws : w ≠ ws := by
            intro hh
            subst hh
            exact hb (honly b c hf hw)
          rw [dictFind_dictDel_ne _ _ _ hwws]
          exact h1 b c hf w hw
      · intro w u hf
        rw [disconnect_users] at hf
        have hwws : w ≠ ws := by
          intro hh
          subst hh
          rw [dictFind_dictDel_self] at hf
          exact Option.noConfusion hf
        rw [dictFind_dictDel_ne _ _ _ hwws] at hf
        obtain ⟨b, c, hbc, hwc⟩ := h2 w u hf
        by_cases hb : b = booking_id
        · subst hb
          rw [hA] at hbc
          injection hbc with hbc
          subst hbc
          refine ⟨b, setRemove ws conns, ?_, mem_setRemove.mpr ⟨hwc, hwws⟩⟩
          rw [hact]
          exact dictFind_dictSet_self _ _ _
        · refine ⟨b, c, ?_, hwc⟩
          rw [hact, dictFind_dictSet_ne _ _ _ _ hb]
          exact hbc
      · intro b1 b2 s1 s2 w hf1 hf2 hw1 hw2
        rw [hact] at hf1 hf2
        by_cases hb1 : b1 = booking_id <;> by_cases hb2 : b2 = booking_id
        · exact hb1.trans hb2.symm
        · subst hb1
          rw [dictFind_dictSet_self] at hf1
          injection hf1 with hf1
          subst hf1
          rw [dictFind_dictSet_ne _ _ _ _ hb2] at hf2
          obtain ⟨hwc, _⟩ := mem_setRemove.mp hw1
          exact h3 b1 b2 conns s2 w hA hf2 hwc hw2
        · subst hb2
          rw [dictFind_dictSet_self] at hf2
          injection hf2 with hf2
          subst hf2
          rw [dictFind_dictSet_ne _ _ _ _ hb1] at hf1
          obtain ⟨hwc, _⟩ := mem_setRemove.mp hw2
          exact h3 b1 b2 s1 conns w hf1 hA hw1 hwc
        · rw [dictFind_dictSet_ne _ _ _ _ hb1] at hf1
          rw [dictFind_dictSet_ne _ _ _ _ hb2] at hf2
          exact h3 b1 b2 s1 s2 w hf1 hf2 hw1 hw2

theorem disconnect_preserves_onlyIn {m : ConnectionManager}
    {w booking_id : Nat} (ws2 booking_id2 : Nat)
    (h : onlyIn m w booking_id) :
    onlyIn (m.disconnect ws2 booking_id2) w booking_id := by
  intro b conns hf hmem
  obtain ⟨c0, hc0, hsub⟩ := disconnect_room_subset hf
  exact h b c0 hc0 (hsub _ hmem)

theorem foldl_disconnect_wf (booking_id : Nat) (l : List Nat) :
    ∀ m : ConnectionManager, m.wf → (∀ w ∈ l, onlyIn m w booking_id) →
      (l.foldl (fun acc w => acc.disconnect w booking_id) m).wf := by
  induction l with
  | nil => exact fun m h _ => h
  | cons w l ih =>
    intro m hwf hall
    refine ih _ (disconnect_wf m w booking_id hwf (hall w (by simp))) ?_
    intro w2 hw2
    exact disconnect_preserves_onlyIn w booking_id
      (hall w2 (List.mem_cons_of_mem _ hw2))

theorem send_to_booking_manager (m : ConnectionManager) (payload : String)
    (booking_id : Nat) (exclude : Option Nat) (sendFails : Nat → Bool) :
    (m.send_to_booking payload booking_id exclude sendFails).2
      = match dictFind booking_id m.active_connections with
        | none => m
        | some conns =>
          ((conns.filter (fun ws => exclude ≠ some ws)).filter
            (fun ws => sendFails ws)).foldl
            (fun acc ws => acc.disconnect ws booking_id) m := by
  cases h : dictFind booking_id m.active_connections with
  | none => simp [ConnectionManager.send_to_booking, h]
  | some conns => simp [ConnectionManager.send_to_booking, h]

theorem applyOp_wf (m : ConnectionManager) (op : Op) (hwf : m.wf)
    (hv : validOp m op) : (applyOp m op).wf := by
  cases op with
  | reg ws booking_id user_id =>
    exact connect_wf m ws booking_id user_id hwf hv.1 hv.2
  | unreg ws booking_id => exact disconnect_wf m ws booking_id hwf hv
  | bcast booking_id exclude sendFails =>
    show ((m.send_to_booking "payload" booking_id exclude sendFails).2).wf
    rw [send_to_booking_manager]
    cases hA : dictFind booking_id m.active_connections with
    | none => exact hwf
    | some conns =>
      refine foldl_disconnect_wf booking_id _ m hwf ?_
      intro w hw
      have hwc : w ∈ conns :=
        (List.mem_filter.mp (List.mem_filter.mp hw).1).1
      intro b c hf hmem
      exact hwf.2.2 b booking_id c conns w hf hA hmem hwc

/-- C8 is refuted as stated: registering a channel that is already
registered under another conversation — a sequence that the side
condition of the claim (which constrains only unregistration) allows —
leaves the channel in two conversation rooms at once, violating the
at-most-one-conversation invariant. -/
theorem registry_invariant_counterexample :
    claimValidFrom ConnectionManager.empty
      [Op.reg 5 1 7, Op.reg 5 2 7] ∧
    ¬ (runOps ConnectionManager.empty [Op.reg 5 1 7, Op.reg 5 2 7]).wf := by
  constructor
  · exact ⟨trivial, trivial, trivial⟩
  · intro hwf
    have h := hwf.2.2 1 2 [5] [5] 5 (by decide) (by decide) (by decide)
      (by decide)
    exact absurd h (by decide)

/-- C8 as amended: for sequences in which additionally every `reg` uses
a channel that is not currently registered (as the handler guarantees,
each websocket object being registered at most once), every `reg`,
`unreg` and `bcast` preserves the registry invariant: each registered
channel has a reverse-lookup entry, each reverse-lookup entry points at
a registered channel, and a channel is in at most one conversation
room. -/
theorem registry_invariants_preserved (m : ConnectionManager)
    (ops : List Op) (hwf : m.wf) (hv : validFrom m ops) :
    (runOps m ops).wf := by
  induction ops generalizing m with
  | nil => exact hwf
  | cons op ops ih => exact ih _ (applyOp_wf m op hwf hv.1) hv.2

/-- Witness for the amended C8 on a concrete registration sequence. -/
theorem registry_invariants_preserved_witness :
    (runOps ConnectionManager.empty [Op.reg 5 1 7]).wf :=
  registry_invariants_preserved ConnectionManager.empty [Op.reg 5 1 7]
    empty_wf ⟨⟨by decide, by decide⟩, trivial⟩

theorem connect_roomsNonempty (m : ConnectionManager)
    (ws booking_id user_id : Nat) (h : m.roomsNonempty) :
    (m.connect ws booking_id user_id).roomsNonempty := by
  intro p hp
  rw [connect_active] at hp
  rcases mem_dictSet hp with hpe | hpm
  · rw [hpe]
    exact setAdd_ne_nil _ _
  · exact h p hpm

theorem disconnect_roomsNonempty (m : ConnectionManager)
    (ws booking_id : Nat) (h : m.roomsNonempty) :
    (m.disconnect ws booking_id).roomsNonempty := by
  intro p hp
  cases hA : dictFind booking_id m.active_connections with
  | none =>
    rw [disconnect_active_none m ws booking_id hA] at hp
    exact h p hp
  | some conns =>
    by_cases hc2 : setRemove ws conns = []
    · rw [disconnect_active_some_nil m ws booking_id conns hA hc2] at hp
      exact h p (mem_dictDel hp)
    · rw [disconnect_active_some m ws booking_id conns hA hc2] at hp
      rcases mem_dictSet hp with hpe | hpm
      · rw [hpe]
        exact hc2
      · exact h p hpm

theorem foldl_disconnect_roomsNonempty (booking_id : Nat) (l : List Nat) :
    ∀ m : ConnectionManager, m.roomsNonempty →
      (l.foldl (fun acc w => acc.disconnect w booking_id)
        m).roomsNonempty := by
  induction l with
  | nil => exact fun m h => h
  | cons w l ih =>
    intro m h
    exact ih _ (disconnect_roomsNonempty m w booking_id h)

/-- C9: every registry operation preserves the invariant that each
conversation entry of the table maps to a non-empty set of channels,
and unregistering the last channel of a conversation removes the
conversation entry itself. -/
theorem registry_rooms_stay_nonempty (m : ConnectionManager) (op : Op)
    (h : m.roomsNonempty) :
    (applyOp m op).roomsNonempty ∧
    (∀ ws booking_id,
      dictFind booking_id m.active_connections = some [ws] →
      dictFind booking_id
        (m.disconnect ws booking_id).active_connections = none) := by
  constructor
  · cases op with
    | reg ws booking_id user_id =>
      exact connect_roomsNonempty m ws booking_id user_id h
    | unreg ws booking_id => exact disconnect_roomsNonempty m ws booking_id h
    | bcast booking_id exclude sendFails =>
      show ((m.send_to_booking "payload" booking_id exclude
        sendFails).2).roomsNonempty
      rw [send_to_booking_manager]
      cases hA : dictFind booking_id m.active_connections with
      | none => exact h
      | some conns => exact foldl_disconnect_roomsNonempty booking_id _ m h
  · intro ws booking_id hA
    have hc2 : setRemove ws [ws] = [] := by simp [setRemove]
    rw [disconnect_active_some_nil m ws booking_id [ws] hA hc2]
    exact dictFind_dictDel_self _ _

/-- Witness for C9: unregistering the only channel of booking 1 removes
the entry for booking 1 from the table. -/
theorem registry_rooms_stay_nonempty_witness :
    (applyOp ⟨[(1, [5])], [(5, 7)]⟩ (Op.unreg 5 1)).roomsNonempty ∧
    dictFind 1 ((ConnectionManager.mk [(1, [5])] [(5, 7)]).disconnect
      5 1).active_connections = none :=
  ⟨(registry_rooms_stay_nonempty ⟨[(1, [5])], [(5, 7)]⟩ (Op.unreg 5 1)
      (by unfold ConnectionManager.roomsNonempty; decide)).1,
    (registry_rooms_stay_nonempty ⟨[(1, [5])], [(5, 7)]⟩ (Op.unreg 5 1)
      (by unfold ConnectionManager.roomsNonempty; decide)).2 5 1
      (by decide)⟩
